import Mathlib

/-!
Verification development for the X-Mem `LatencyWorker::run` measurement protocol
(src/src/LatencyWorker.cpp).

The run protocol is embedded shallowly as a pure Lean function.  Machine `uint64_t`
values are modelled as `Nat`; the one place where unsigned wrap-around matters (the
size-based `start_tick - stop_tick` subtraction) is modelled explicitly with
arithmetic modulo `2 ^ 64` (`sub64`).  The hardware cycle counter is modelled as a
monotone `Nat` clock that advances by an environment-supplied positive cost at every
kernel invocation; fallible external primitives (lock acquisition, CPU pinning,
priority boost/revert) are modelled by Boolean outcomes supplied in an `Env` record.
The run additionally produces a trace of externally visible events, used to state
the temporal claims (priming order, pin/priority revert, publication write order).
-/

namespace XMem

/-- `2 ^ 64`, the modulus of C++ `uint64_t` arithmetic. -/
def U64 : Nat := 2 ^ 64

/-- Unsigned 64-bit subtraction: the value of `a - b` computed on `uint64_t`
operands whose mathematical values are `a` and `b`, i.e. `(a - b) mod 2 ^ 64`
over the integers. -/
def sub64 (a b : Nat) : Nat := (a + (U64 - b % U64)) % U64

/-- A pointer-chasing benchmark kernel (the C++ `RandomFunction`): given the current
chain pointer and the `len` argument it produces the next chain pointer (`next`),
and the monotone hardware cycle counter advances by `cost` ticks during the
invocation.  `cost_pos` reflects that the counter strictly advances across any
kernel invocation; the timed loops in the source terminate only under this
assumption. -/
structure Kernel where
  next : Nat → Nat → Nat
  cost : Nat → Nat → Nat
  cost_pos : ∀ a l, 0 < cost a l

/-- Modelled from the spec: `g_ticks_per_sec`, `BENCHMARK_DURATION_SEC`,
`MIN_ELAPSED_TICKS` and `LATENCY_BENCHMARK_UNROLL_LENGTH` are global constants
declared in common.h, which is not part of the provided source; they are kept as
parameters of the model. -/
structure Globals where
  ticks_per_sec : Nat
  duration_sec : Nat
  min_elapsed_ticks : Nat
  unroll_len : Nat

/-- Per-run outcomes of the fallible external primitives, and the initial value of
the monotone cycle counter.  `acquire1` is the outcome of the `_acquireLock(-1)`
call guarding the config snapshot, `acquire2` the one guarding result
publication. -/
structure Env where
  acquire1 : Bool
  acquire2 : Bool
  pin_ok : Bool
  boost_ok : Bool
  revert_ok : Bool
  clock0 : Nat

/-- The mutex-guarded shared state of the worker: configuration fields written by
the controller (`mem_array` = `_mem_array`, `len`, `passes_per_iteration`,
`cpu_affinity`, the two kernel pointers) and the `WorkerResult` fields written by
the worker. -/
structure SharedState where
  mem_array : Nat
  len : Nat
  passes_per_iteration : Nat
  cpu_affinity : Int
  kernel_fptr : Kernel
  kernel_dummy_fptr : Kernel
  adjusted_ticks : Nat
  elapsed_ticks : Nat
  elapsed_dummy_ticks : Nat
  warning : Bool
  bytes_per_pass : Nat
  completed : Bool
  passes : Nat

/-- The `WorkerResult` fields of the shared state, i.e. what the controller reads
back as the published result of a run. -/
structure WorkerResult where
  adjusted_ticks : Nat
  elapsed_ticks : Nat
  elapsed_dummy_ticks : Nat
  warning : Bool
  bytes_per_pass : Nat
  completed : Bool
  passes : Nat
deriving DecidableEq

/-- Project the published result out of the shared state. -/
def SharedState.result (s : SharedState) : WorkerResult :=
  ⟨s.adjusted_ticks, s.elapsed_ticks, s.elapsed_dummy_ticks, s.warning,
    s.bytes_per_pass, s.completed, s.passes⟩

/-- Names of the `WorkerResult` fields, used to record publication writes in the
event trace. -/
inductive RecField where
  | adjustedTicks
  | elapsedTicks
  | elapsedDummyTicks
  | warningFlag
  | bytesPerPass
  | completedFlag
  | passesCount
deriving DecidableEq

/-- Externally visible events of one run, in program order. -/
inductive Event where
  | lockAcquire (ok : Bool)
  | lockRelease
  | pin (cpu : Int) (ok : Bool)
  | boost (ok : Bool)
  | primeRead (base lenB : Nat)
  | timerStart (t : Nat)
  | kern (dummy : Bool) (addr c : Nat)
  | timerStop (t : Nat)
  | unpin
  | revertPrio (ok : Bool)
  | write (f : RecField)
deriving DecidableEq

/-- Modelled from the spec: the thread-local kernel pointers are initialized to
NULL; were the snapshot lock acquisition (an indefinite wait in the source) to
fail, they would stay NULL and invoking them would be undefined behavior in C++.
This total stand-in interprets such a call arbitrarily; the claim theorems about
the measurement assume the snapshot acquisition succeeded. -/
def nullKernel : Kernel := ⟨fun a _ => a, fun _ _ => 1, fun _ _ => Nat.one_pos⟩

/-- Run `n` consecutive invocations of kernel `k` (the body of an `UNROLL256`
batch, or of the size-based `for` loop) starting from chain pointer `addr`,
passing `lenArg` as the length argument.  Returns the final chain pointer, the
total number of ticks the cycle counter advances, and the per-invocation trace. -/
def runBatch (k : Kernel) (d : Bool) (lenArg : Nat) : Nat → Nat → Nat × Nat × List Event
  | 0, addr => (addr, 0, [])
  | n + 1, addr =>
      let c := k.cost addr lenArg
      let rest := runBatch k d lenArg n (k.next addr lenArg)
      (rest.1, c + rest.2.1, Event.kern d addr c :: rest.2.2)

/-- The state threaded through a timed benchmark loop: the accumulated elapsed
ticks, the pass counter, the current chain pointer, the current value of the
cycle counter, and the trace so far. -/
structure LoopState where
  elapsed : Nat
  passes : Nat
  addr : Nat
  clock : Nat
  trace : List Event

/-- Each timed `UNROLL256` batch advances the counter by a positive amount. -/
theorem runBatch_cost_pos (k : Kernel) (d : Bool) (lenArg n addr : Nat) (hn : 0 < n) :
    0 < (runBatch k d lenArg n addr).2.1 := by
  cases n with
  | zero => exact absurd hn (by simp)
  | succ m =>
      have h := k.cost_pos addr lenArg
      simp only [runBatch]
      omega

/-- The duration-bounded real-kernel loop (lines 140-146 of the source):
while the accumulated elapsed ticks are below `target`, time one `UNROLL256`
batch of `k`, add `stop_tick - start_tick` to the elapsed total and `256` to the
pass counter. -/
def realLoop (k : Kernel) (target : Nat) (st : LoopState) : LoopState :=
  if _h : st.elapsed < target then
    let b := runBatch k false 0 256 st.addr
    let start_tick := st.clock
    let stop_tick := st.clock + b.2.1
    realLoop k target
      { elapsed := st.elapsed + (stop_tick - start_tick)
        passes := st.passes + 256
        addr := b.1
        clock := stop_tick
        trace := st.trace ++ Event.timerStart start_tick :: (b.2.2 ++ [Event.timerStop stop_tick]) }
  else st
termination_by target - st.elapsed
decreasing_by
  have hc := runBatch_cost_pos k false 0 256 st.addr (by omega)
  omega

/-- The duration-bounded dummy-kernel loop (lines 150-156 of the source):
run `UNROLL256` batches of the dummy kernel until the pass counter reaches
`bound` (the pass count just recorded by the real loop), accumulating dummy
elapsed ticks per batch the same way. -/
def dummyLoop (k : Kernel) (bound : Nat) (st : LoopState) : LoopState :=
  if _h : st.passes < bound then
    let b := runBatch k true 0 256 st.addr
    let start_tick := st.clock
    let stop_tick := st.clock + b.2.1
    dummyLoop k bound
      { elapsed := st.elapsed + (stop_tick - start_tick)
        passes := st.passes + 256
        addr := b.1
        clock := stop_tick
        trace := st.trace ++ Event.timerStart start_tick :: (b.2.2 ++ [Event.timerStop stop_tick]) }
  else st
termination_by bound - st.passes
decreasing_by
  omega

/-- The warning predicate of lines 179-181: `elapsed_dummy_ticks >= elapsed_ticks`,
or `elapsed_ticks < MIN_ELAPSED_TICKS`, or `adjusted_ticks < 0.5 * elapsed_ticks`.
The last comparison is made in C++ through `double` arithmetic; it is modelled as
the exact comparison `2 * adjusted_ticks < elapsed_ticks`, which agrees with the
`double` computation for all values below `2 ^ 53`. -/
def warningOf (g : Globals) (elapsed dummy adjusted : Nat) : Bool :=
  decide (elapsed ≤ dummy) || decide (elapsed < g.min_elapsed_ticks) ||
    decide (2 * adjusted < elapsed)

/-- The publication event block (lines 197-206): acquire the lock, write every
`WorkerResult` field in source order, release the lock. -/
def pubEvents : List Event :=
  [Event.lockAcquire true, Event.write RecField.adjustedTicks,
    Event.write RecField.elapsedTicks, Event.write RecField.elapsedDummyTicks,
    Event.write RecField.warningFlag, Event.write RecField.bytesPerPass,
    Event.write RecField.completedFlag, Event.write RecField.passesCount,
    Event.lockRelease]

/-- `LatencyWorker::run` compiled with `USE_TIME_BASED_BENCHMARKS` (duration-bounded
mode).  `s` is the shared state at snapshot time and `spub` the (possibly
controller-mutated) shared state in effect from then on, in particular at
publication time; the duration-bounded path never reads shared state after the
snapshot.  Returns the final shared state and the event trace of the run. -/
def runTB (g : Globals) (s spub : SharedState) (env : Env) : SharedState × List Event :=
  let target_ticks := g.ticks_per_sec * g.duration_sec
  let mem_array := if env.acquire1 then s.mem_array else 0
  let len := if env.acquire1 then s.len else 0
  let bytes_per_pass := if env.acquire1 then g.unroll_len * 8 else 0
  let cpu_affinity := if env.acquire1 then s.cpu_affinity else 0
  let kernel_fptr := if env.acquire1 then s.kernel_fptr else nullKernel
  let kernel_dummy_fptr := if env.acquire1 then s.kernel_dummy_fptr else nullKernel
  let snapTrace :=
    if env.acquire1 then [Event.lockAcquire true, Event.lockRelease]
    else [Event.lockAcquire false]
  let preTrace := snapTrace ++
    [Event.pin cpu_affinity env.pin_ok, Event.boost env.boost_ok,
      Event.primeRead mem_array len, Event.primeRead mem_array len,
      Event.primeRead mem_array len, Event.primeRead mem_array len]
  let r := realLoop kernel_fptr target_ticks ⟨0, 0, mem_array, env.clock0, []⟩
  let d := dummyLoop kernel_dummy_fptr r.passes ⟨0, 0, mem_array, r.clock, []⟩
  let elapsed_ticks := r.elapsed
  let elapsed_dummy_ticks := d.elapsed
  let adjusted_ticks := sub64 elapsed_ticks elapsed_dummy_ticks
  let warning := warningOf g elapsed_ticks elapsed_dummy_ticks adjusted_ticks
  let postTrace := (if env.pin_ok then [Event.unpin] else []) ++
    [Event.revertPrio env.revert_ok]
  if env.acquire2 then
    ({ spub with
        adjusted_ticks := adjusted_ticks
        elapsed_ticks := elapsed_ticks
        elapsed_dummy_ticks := elapsed_dummy_ticks
        warning := warning
        bytes_per_pass := bytes_per_pass
        completed := true
        passes := r.passes },
      preTrace ++ r.trace ++ d.trace ++ postTrace ++ pubEvents)
  else
    (spub, preTrace ++ r.trace ++ d.trace ++ postTrace ++ [Event.lockAcquire false])

/-- `LatencyWorker::run` compiled for the size-based path (pass-count-bounded
mode, lines 159-175).  The real-kernel loop starts from the snapshot local
`mem_array`; the dummy-kernel loop starts from the shared `_mem_array` as it
stands at that moment (`spub.mem_array`, line 169).  Each of the two loops is
wrapped in a single timer pair, and the elapsed totals are accumulated as
`start_tick - stop_tick` on `uint64_t` (the source's subtraction order),
modelled by `sub64`. -/
def runSB (g : Globals) (s spub : SharedState) (env : Env) : SharedState × List Event :=
  let mem_array := if env.acquire1 then s.mem_array else 0
  let len := if env.acquire1 then s.len else 0
  let passes := if env.acquire1 then s.passes_per_iteration else 0
  let bytes_per_pass := if env.acquire1 then g.unroll_len * 8 else 0
  let cpu_affinity := if env.acquire1 then s.cpu_affinity else 0
  let kernel_fptr := if env.acquire1 then s.kernel_fptr else nullKernel
  let kernel_dummy_fptr := if env.acquire1 then s.kernel_dummy_fptr else nullKernel
  let snapTrace :=
    if env.acquire1 then [Event.lockAcquire true, Event.lockRelease]
    else [Event.lockAcquire false]
  let preTrace := snapTrace ++
    [Event.pin cpu_affinity env.pin_ok, Event.boost env.boost_ok,
      Event.primeRead mem_array len, Event.primeRead mem_array len,
      Event.primeRead mem_array len, Event.primeRead mem_array len]
  let start1 := env.clock0
  let b1 := runBatch kernel_fptr false len passes mem_array
  let stop1 := env.clock0 + b1.2.1
  let elapsed_ticks := sub64 start1 stop1
  let start2 := stop1
  let b2 := runBatch kernel_dummy_fptr true len passes spub.mem_array
  let stop2 := stop1 + b2.2.1
  let elapsed_dummy_ticks := sub64 start2 stop2
  let adjusted_ticks := sub64 elapsed_ticks elapsed_dummy_ticks
  let warning := warningOf g elapsed_ticks elapsed_dummy_ticks adjusted_ticks
  let measureTrace :=
    Event.timerStart start1 :: (b1.2.2 ++ [Event.timerStop stop1]) ++
      Event.timerStart start2 :: (b2.2.2 ++ [Event.timerStop stop2])
  let postTrace := (if env.pin_ok then [Event.unpin] else []) ++
    [Event.revertPrio env.revert_ok]
  if env.acquire2 then
    ({ spub with
        adjusted_ticks := adjusted_ticks
        elapsed_ticks := elapsed_ticks
        elapsed_dummy_ticks := elapsed_dummy_ticks
        warning := warning
        bytes_per_pass := bytes_per_pass
        completed := true
        passes := passes },
      preTrace ++ measureTrace ++ postTrace ++ pubEvents)
  else
    (spub, preTrace ++ measureTrace ++ postTrace ++ [Event.lockAcquire false])

/-! ## Event predicates -/

/-- Is this event a kernel invocation with dummy tag `d`? -/
def isKernTag (d : Bool) : Event → Bool
  | .kern d' _ _ => d == d'
  | _ => false

/-- Is this event any kernel invocation? -/
def isKernEv : Event → Bool
  | .kern _ _ _ => true
  | _ => false

/-- Is this event a priming read? -/
def isPrimeEv : Event → Bool
  | .primeRead _ _ => true
  | _ => false

/-- Is this event a timer start? -/
def isStartEv : Event → Bool
  | .timerStart _ => true
  | _ => false

/-- Is this event a timer stop? -/
def isStopEv : Event → Bool
  | .timerStop _ => true
  | _ => false

/-- Is this event the release of the CPU pin? -/
def isUnpinEv : Event → Bool
  | .unpin => true
  | _ => false

/-- Is this event the scheduling-priority revert? -/
def isRevertEv : Event → Bool
  | .revertPrio _ => true
  | _ => false

/-- Is this event a publication write to a result field? -/
def isWriteEv : Event → Bool
  | .write _ => true
  | _ => false

/-- Is this event part of a measured interval (kernel invocation or timer read)? -/
def isMeasureEv (e : Event) : Bool := isKernEv e || isStartEv e || isStopEv e

/-! ## Loop invariants -/

/-- Every event emitted by a batch of `n` invocations is a kernel invocation
carrying the batch's dummy tag. -/
theorem runBatch_trace_mem (k : Kernel) (d : Bool) (lenArg : Nat) : ∀ n addr,
    ∀ e ∈ (runBatch k d lenArg n addr).2.2, isKernTag d e = true := by
  intro n
  induction n with
  | zero => intro addr e he; simp [runBatch] at he
  | succ m ih =>
      intro addr e he
      simp only [runBatch, List.mem_cons] at he
      rcases he with he | he
      · subst he; simp [isKernTag]
      · exact ih _ e he

/-- A batch of `n` invocations emits exactly `n` kernel-invocation events. -/
theorem runBatch_trace_count (k : Kernel) (d : Bool) (lenArg : Nat) : ∀ n addr,
    ((runBatch k d lenArg n addr).2.2).countP (isKernTag d) = n := by
  intro n
  induction n with
  | zero => intro addr; simp [runBatch]
  | succ m ih =>
      intro addr
      simp only [runBatch, List.countP_cons]
      rw [ih]
      simp [isKernTag]

/-- At exit of the duration-bounded real loop, the accumulated elapsed ticks have
reached the target (the loop's exit condition). -/
theorem realLoop_target_le (k : Kernel) (target : Nat) (st : LoopState) :
    target ≤ (realLoop k target st).elapsed := by
  rw [realLoop]
  split
  · exact realLoop_target_le k target _
  · omega
termination_by target - st.elapsed
decreasing_by
  have hc := runBatch_cost_pos k false 0 256 st.addr (by omega)
  omega

/-- The duration-bounded real loop only ever adds whole batches of 256 passes. -/
theorem realLoop_passes_dvd (k : Kernel) (target : Nat) (st : LoopState)
    (h : 256 ∣ st.passes) : 256 ∣ (realLoop k target st).passes := by
  rw [realLoop]
  split
  · exact realLoop_passes_dvd k target _ (by simpa using Nat.dvd_add h ⟨1, rfl⟩)
  · exact h
termination_by target - st.elapsed
decreasing_by
  have hc := runBatch_cost_pos k false 0 256 st.addr (by omega)
  omega

/-- Every event the duration-bounded real loop appends to the trace is a
real-kernel invocation or a timer read. -/
theorem realLoop_trace_mem (k : Kernel) (target : Nat) (st : LoopState) :
    ∀ e ∈ (realLoop k target st).trace,
      e ∈ st.trace ∨ (isKernTag false e = true ∨ isStartEv e = true ∨ isStopEv e = true) := by
  rw [realLoop]
  split
  · intro e he
    have h2 := realLoop_trace_mem k target
      { elapsed := st.elapsed + (st.clock + (runBatch k false 0 256 st.addr).2.1 - st.clock)
        passes := st.passes + 256
        addr := (runBatch k false 0 256 st.addr).1
        clock := st.clock + (runBatch k false 0 256 st.addr).2.1
        trace := st.trace ++ Event.timerStart st.clock ::
          ((runBatch k false 0 256 st.addr).2.2 ++
            [Event.timerStop (st.clock + (runBatch k false 0 256 st.addr).2.1)]) } e he
    rcases h2 with h2 | h2
    · simp only [List.mem_append, List.mem_cons, List.mem_singleton, List.not_mem_nil,
        or_false] at h2
      rcases h2 with h2 | h2 | h2 | h2
      · exact Or.inl h2
      · subst h2; right; right; left; rfl
      · exact Or.inr (Or.inl (runBatch_trace_mem k false 0 256 st.addr e h2))
      · subst h2; right; right; right; rfl
    · exact Or.inr h2
  · intro e he; exact Or.inl he
termination_by target - st.elapsed
decreasing_by
  have hc := runBatch_cost_pos k false 0 256 st.addr (by omega)
  omega

/-- In the duration-bounded real loop, the number of real-kernel invocation events
grows in lockstep with the pass counter. -/
theorem realLoop_trace_kern_count (k : Kernel) (target : Nat) (st : LoopState) :
    ((realLoop k target st).trace).countP (isKernTag false) + st.passes =
      (st.trace).countP (isKernTag false) + (realLoop k target st).passes := by
  rw [realLoop]
  split
  · have h2 := realLoop_trace_kern_count k target
      { elapsed := st.elapsed + (st.clock + (runBatch k false 0 256 st.addr).2.1 - st.clock)
        passes := st.passes + 256
        addr := (runBatch k false 0 256 st.addr).1
        clock := st.clock + (runBatch k false 0 256 st.addr).2.1
        trace := st.trace ++ Event.timerStart st.clock ::
          ((runBatch k false 0 256 st.addr).2.2 ++
            [Event.timerStop (st.clock + (runBatch k false 0 256 st.addr).2.1)]) }
    simp [List.countP_append, List.countP_cons, runBatch_trace_count, isKernTag] at h2 ⊢
    omega
  · rfl
termination_by target - st.elapsed
decreasing_by
  have hc := runBatch_cost_pos k false 0 256 st.addr (by omega)
  omega

/-- The duration-bounded dummy loop, started at a pass count below the bound with
the remaining gap a whole number of batches, stops exactly at the bound. -/
theorem dummyLoop_passes_eq (k : Kernel) (bound : Nat) (st : LoopState)
    (hle : st.passes ≤ bound) (hdvd : 256 ∣ (bound - st.passes)) :
    (dummyLoop k bound st).passes = bound := by
  rw [dummyLoop]
  split
  · rename_i h
    rcases hdvd with ⟨q, hq⟩
    have hq1 : 1 ≤ q := by omega
    refine dummyLoop_passes_eq k bound _ ?_ ?_
    · show st.passes + 256 ≤ bound
      omega
    · show 256 ∣ (bound - (st.passes + 256))
      exact ⟨q - 1, by omega⟩
  · omega
termination_by bound - st.passes
decreasing_by
  omega

/-- Every event the duration-bounded dummy loop appends to the trace is a
dummy-kernel invocation or a timer read. -/
theorem dummyLoop_trace_mem (k : Kernel) (bound : Nat) (st : LoopState) :
    ∀ e ∈ (dummyLoop k bound st).trace,
      e ∈ st.trace ∨ (isKernTag true e = true ∨ isStartEv e = true ∨ isStopEv e = true) := by
  rw [dummyLoop]
  split
  · intro e he
    have h2 := dummyLoop_trace_mem k bound
      { elapsed := st.elapsed + (st.clock + (runBatch k true 0 256 st.addr).2.1 - st.clock)
        passes := st.passes + 256
        addr := (runBatch k true 0 256 st.addr).1
        clock := st.clock + (runBatch k true 0 256 st.addr).2.1
        trace := st.trace ++ Event.timerStart st.clock ::
          ((runBatch k true 0 256 st.addr).2.2 ++
            [Event.timerStop (st.clock + (runBatch k true 0 256 st.addr).2.1)]) } e he
    rcases h2 with h2 | h2
    · simp only [List.mem_append, List.mem_cons, List.mem_singleton, List.not_mem_nil,
        or_false] at h2
      rcases h2 with h2 | h2 | h2 | h2
      · exact Or.inl h2
      · subst h2; right; right; left; rfl
      · exact Or.inr (Or.inl (runBatch_trace_mem k true 0 256 st.addr e h2))
      · subst h2; right; right; right; rfl
    · exact Or.inr h2
  · intro e he; exact Or.inl he
termination_by bound - st.passes
decreasing_by
  omega

/-- In the duration-bounded dummy loop, the number of dummy-kernel invocation
events grows in lockstep with the pass counter. -/
theorem dummyLoop_trace_kern_count (k : Kernel) (bound : Nat) (st : LoopState) :
    ((dummyLoop k bound st).trace).countP (isKernTag true) + st.passes =
      (st.trace).countP (isKernTag true) + (dummyLoop k bound st).passes := by
  rw [dummyLoop]
  split
  · have h2 := dummyLoop_trace_kern_count k bound
      { elapsed := st.elapsed + (st.clock + (runBatch k true 0 256 st.addr).2.1 - st.clock)
        passes := st.passes + 256
        addr := (runBatch k true 0 256 st.addr).1
        clock := st.clock + (runBatch k true 0 256 st.addr).2.1
        trace := st.trace ++ Event.timerStart st.clock ::
          ((runBatch k true 0 256 st.addr).2.2 ++
            [Event.timerStop (st.clock + (runBatch k true 0 256 st.addr).2.1)]) }
    simp [List.countP_append, List.countP_cons, runBatch_trace_count, isKernTag] at h2 ⊢
    omega
  · rfl
termination_by bound - st.passes
decreasing_by
  omega

/-- `uint64_t` subtraction computes the exact difference whenever the subtrahend
is smaller than the minuend and the minuend is in `uint64_t` range. -/
theorem sub64_exact (a b : Nat) (hlt : b < a) (ha : a < U64) : sub64 a b = a - b := by
  simp only [sub64, U64] at *
  omega

/-- An event that is a kernel invocation or a timer read is not a priming read,
pin release, priority revert, or publication write. -/
theorem measure_event_classes (e : Event)
    (h : isKernTag true e = true ∨ isKernTag false e = true ∨
      isStartEv e = true ∨ isStopEv e = true) :
    isPrimeEv e = false ∧ isUnpinEv e = false ∧ isRevertEv e = false ∧
      isWriteEv e = false := by
  cases e <;>
    simp [isKernTag, isStartEv, isStopEv, isPrimeEv, isUnpinEv, isRevertEv, isWriteEv] at h ⊢

/-- A kernel invocation tagged `d` is not tagged `!d`. -/
theorem isKernTag_not (d : Bool) (e : Event) (h : isKernTag d e = true) :
    isKernTag (!d) e = false := by
  cases e <;> simp [isKernTag] at h ⊢
  subst h
  cases d <;> rfl

/-- A timer start or stop is not a kernel invocation. -/
theorem timer_not_kern (d : Bool) (e : Event)
    (h : isStartEv e = true ∨ isStopEv e = true) : isKernTag d e = false := by
  cases e <;> simp [isKernTag, isStartEv, isStopEv] at h ⊢

/-- A predicate that is false on every event holds count zero. -/
theorem countP_zero_of_all (l : List Event) (p : Event → Bool)
    (h : ∀ e ∈ l, p e = false) : l.countP p = 0 :=
  List.countP_eq_zero.mpr (fun a ha => by simp [h a ha])

/-- Any event predicate that is false on kernel invocations and timer reads is
false on everything the duration-bounded real loop appends to the trace. -/
theorem realLoop_trace_all (k : Kernel) (target : Nat) (st : LoopState)
    (p : Event → Bool) (h0 : ∀ e ∈ st.trace, p e = false)
    (hp : ∀ e, isKernTag false e = true ∨ isStartEv e = true ∨ isStopEv e = true →
      p e = false) :
    ∀ e ∈ (realLoop k target st).trace, p e = false := by
  intro e he
  rcases realLoop_trace_mem k target st e he with h | h
  · exact h0 e h
  · exact hp e h

/-- Any event predicate that is false on kernel invocations and timer reads is
false on everything the duration-bounded dummy loop appends to the trace. -/
theorem dummyLoop_trace_all (k : Kernel) (bound : Nat) (st : LoopState)
    (p : Event → Bool) (h0 : ∀ e ∈ st.trace, p e = false)
    (hp : ∀ e, isKernTag true e = true ∨ isStartEv e = true ∨ isStopEv e = true →
      p e = false) :
    ∀ e ∈ (dummyLoop k bound st).trace, p e = false := by
  intro e he
  rcases dummyLoop_trace_mem k bound st e he with h | h
  · exact h0 e h
  · exact hp e h

/-! ## Claims -/

/-- C1: for every completed run (snapshot lock and publication lock both
acquired) in which the published `elapsed_dummy_ticks` is smaller than the
published `elapsed_ticks` (the latter being a `uint64_t` value, below `2 ^ 64`),
the published `adjusted_ticks` equals `elapsed_ticks - elapsed_dummy_ticks`
exactly — in duration-bounded mode and in pass-count-bounded mode alike. -/
theorem c1_adjusted_ticks_exact (g : Globals) (s spub : SharedState) (env : Env)
    (h1 : env.acquire1 = true) (h2 : env.acquire2 = true) :
    ((runTB g s spub env).1.elapsed_dummy_ticks < (runTB g s spub env).1.elapsed_ticks →
      (runTB g s spub env).1.elapsed_ticks < U64 →
      (runTB g s spub env).1.adjusted_ticks =
        (runTB g s spub env).1.elapsed_ticks - (runTB g s spub env).1.elapsed_dummy_ticks) ∧
    ((runSB g s spub env).1.elapsed_dummy_ticks < (runSB g s spub env).1.elapsed_ticks →
      (runSB g s spub env).1.elapsed_ticks < U64 →
      (runSB g s spub env).1.adjusted_ticks =
        (runSB g s spub env).1.elapsed_ticks - (runSB g s spub env).1.elapsed_dummy_ticks) := by
  constructor
  · intro hlt h64
    simp only [runTB, h1, h2, if_true] at hlt h64 ⊢
    exact sub64_exact _ _ hlt h64
  · intro hlt h64
    simp only [runSB, h1, h2, if_true] at hlt h64 ⊢
    exact sub64_exact _ _ hlt h64

/-- C2: for every completed run, in either mode, the published warning flag is
true if and only if `elapsed_dummy_ticks ≥ elapsed_ticks`, or
`elapsed_ticks < MIN_ELAPSED_TICKS`, or `adjusted_ticks < 0.5 * elapsed_ticks`
(the half-comparison taken in exact arithmetic, `2 * adjusted < elapsed`), all on
the published values; and the warning never prevents publication: the run still
publishes with `completed = true` whatever the flag's value. -/
theorem c2_warning_iff (g : Globals) (s spub : SharedState) (env : Env)
    (h1 : env.acquire1 = true) (h2 : env.acquire2 = true) :
    (((runTB g s spub env).1.warning = true ↔
      ((runTB g s spub env).1.elapsed_ticks ≤ (runTB g s spub env).1.elapsed_dummy_ticks ∨
        (runTB g s spub env).1.elapsed_ticks < g.min_elapsed_ticks ∨
        2 * (runTB g s spub env).1.adjusted_ticks < (runTB g s spub env).1.elapsed_ticks)) ∧
      (runTB g s spub env).1.completed = true) ∧
    (((runSB g s spub env).1.warning = true ↔
      ((runSB g s spub env).1.elapsed_ticks ≤ (runSB g s spub env).1.elapsed_dummy_ticks ∨
        (runSB g s spub env).1.elapsed_ticks < g.min_elapsed_ticks ∨
        2 * (runSB g s spub env).1.adjusted_ticks < (runSB g s spub env).1.elapsed_ticks)) ∧
      (runSB g s spub env).1.completed = true) := by
  refine ⟨⟨?_, ?_⟩, ⟨?_, ?_⟩⟩ <;>
    (simp [runTB, runSB, h1, h2, warningOf]; try tauto)

/-- C3: in duration-bounded mode, for every completed run the published pass
count is a multiple of the batch size 256, and the published accumulated real
elapsed ticks are at least the target threshold
`g_ticks_per_sec * BENCHMARK_DURATION_SEC`. -/
theorem c3_time_mode_loop_exit (g : Globals) (s spub : SharedState) (env : Env)
    (h1 : env.acquire1 = true) (h2 : env.acquire2 = true) :
    256 ∣ (runTB g s spub env).1.passes ∧
      g.ticks_per_sec * g.duration_sec ≤ (runTB g s spub env).1.elapsed_ticks := by
  constructor
  · simp only [runTB, h1, h2, if_true]
    exact realLoop_passes_dvd _ _ _ ⟨0, rfl⟩
  · simp only [runTB, h1, h2, if_true]
    exact realLoop_target_le _ _ _

/-- C5: in duration-bounded mode, for every completed run the dummy-kernel
batched loop performs exactly as many kernel invocations as the real-kernel loop
just recorded: the trace carries equally many dummy-kernel and real-kernel
invocation events, and that common count is the published pass count. -/
theorem c5_dummy_invocations_match (g : Globals) (s spub : SharedState) (env : Env)
    (h1 : env.acquire1 = true) (h2 : env.acquire2 = true) :
    ((runTB g s spub env).2).countP (isKernTag true) =
      ((runTB g s spub env).2).countP (isKernTag false) ∧
    ((runTB g s spub env).2).countP (isKernTag false) = (runTB g s spub env).1.passes := by
  simp only [runTB, h1, h2, if_true]
  set r := realLoop s.kernel_fptr (g.ticks_per_sec * g.duration_sec)
    ⟨0, 0, s.mem_array, env.clock0, []⟩ with hrdef
  set d := dummyLoop s.kernel_dummy_fptr r.passes ⟨0, 0, s.mem_array, r.clock, []⟩ with hddef
  have hr256 : 256 ∣ r.passes := by
    rw [hrdef]
    exact realLoop_passes_dvd _ _ _ ⟨0, rfl⟩
  have hdp : d.passes = r.passes := by
    rw [hddef]
    exact dummyLoop_passes_eq _ _ _ (Nat.zero_le _) (by simpa using hr256)
  have hrcount : r.trace.countP (isKernTag false) = r.passes := by
    have h := realLoop_trace_kern_count s.kernel_fptr (g.ticks_per_sec * g.duration_sec)
      ⟨0, 0, s.mem_array, env.clock0, []⟩
    rw [← hrdef] at h
    simpa using h
  have hdcount : d.trace.countP (isKernTag true) = d.passes := by
    have h := dummyLoop_trace_kern_count s.kernel_dummy_fptr r.passes
      ⟨0, 0, s.mem_array, r.clock, []⟩
    rw [← hddef] at h
    simpa using h
  have hrzero : r.trace.countP (isKernTag true) = 0 := by
    refine countP_zero_of_all _ _ ?_
    rw [hrdef]
    refine realLoop_trace_all _ _ _ _ (by simp) ?_
    intro e he
    rcases he with he | he
    · simpa using isKernTag_not false e he
    · exact timer_not_kern true e he
  have hdzero : d.trace.countP (isKernTag false) = 0 := by
    refine countP_zero_of_all _ _ ?_
    rw [hddef]
    refine dummyLoop_trace_all _ _ _ _ (by simp) ?_
    intro e he
    rcases he with he | he
    · simpa using isKernTag_not true e he
    · exact timer_not_kern false e he
  by_cases hpo : env.pin_ok = true <;>
    simp [hpo, List.countP_append, List.countP_cons, pubEvents, isKernTag,
      hrcount, hdcount, hrzero, hdzero, hdp]

/-- C7 (amended): in both modes, at the end of every run the scheduling-priority
revert is performed exactly once regardless of the measurement outcome, and the
CPU-pin release is performed exactly when the pin step succeeded (the source
skips `unlock_thread_to_numa_node` when `lock_thread_to_cpu` failed). -/
theorem c7_revert_always_unpin_iff_pinned (g : Globals) (s spub : SharedState) (env : Env) :
    (((runTB g s spub env).2).countP isRevertEv = 1 ∧
      ((runTB g s spub env).2).countP isUnpinEv = (if env.pin_ok then 1 else 0)) ∧
    (((runSB g s spub env).2).countP isRevertEv = 1 ∧
      ((runSB g s spub env).2).countP isUnpinEv = (if env.pin_ok then 1 else 0)) := by
  have hr : ∀ (k : Kernel) (t m c : Nat) (p : Event → Bool),
      (∀ e, isKernTag false e = true ∨ isStartEv e = true ∨ isStopEv e = true → p e = false) →
      (realLoop k t ⟨0, 0, m, c, []⟩).trace.countP p = 0 := by
    intro k t m c p hp
    exact countP_zero_of_all _ _ (realLoop_trace_all _ _ _ _ (by simp) hp)
  have hd : ∀ (k : Kernel) (b m c : Nat) (p : Event → Bool),
      (∀ e, isKernTag true e = true ∨ isStartEv e = true ∨ isStopEv e = true → p e = false) →
      (dummyLoop k b ⟨0, 0, m, c, []⟩).trace.countP p = 0 := by
    intro k b m c p hp
    exact countP_zero_of_all _ _ (dummyLoop_trace_all _ _ _ _ (by simp) hp)
  have hprev : ∀ e, isKernTag false e = true ∨ isStartEv e = true ∨ isStopEv e = true →
      isRevertEv e = false := by
    intro e he
    exact (measure_event_classes e (by tauto)).2.2.1
  have hprev' : ∀ e, isKernTag true e = true ∨ isStartEv e = true ∨ isStopEv e = true →
      isRevertEv e = false := by
    intro e he
    exact (measure_event_classes e (by tauto)).2.2.1
  have hpun : ∀ e, isKernTag false e = true ∨ isStartEv e = true ∨ isStopEv e = true →
      isUnpinEv e = false := by
    intro e he
    exact (measure_event_classes e (by tauto)).2.1
  have hpun' : ∀ e, isKernTag true e = true ∨ isStartEv e = true ∨ isStopEv e = true →
      isUnpinEv e = false := by
    intro e he
    exact (measure_event_classes e (by tauto)).2.1
  have hb : ∀ (k : Kernel) (la n a : Nat) (p : Event → Bool),
      (∀ e, isKernEv e = true → p e = false) →
      ((runBatch k true la n a).2.2).countP p = 0 := by
    intro k la n a p hp
    refine countP_zero_of_all _ _ ?_
    intro e he
    have := runBatch_trace_mem k true la n a e he
    refine hp e ?_
    cases e <;> simp [isKernTag, isKernEv] at this ⊢
  have hb' : ∀ (k : Kernel) (la n a : Nat) (p : Event → Bool),
      (∀ e, isKernEv e = true → p e = false) →
      ((runBatch k false la n a).2.2).countP p = 0 := by
    intro k la n a p hp
    refine countP_zero_of_all _ _ ?_
    intro e he
    have := runBatch_trace_mem k false la n a e he
    refine hp e ?_
    cases e <;> simp [isKernTag, isKernEv] at this ⊢
  have hkrev : ∀ e, isKernEv e = true → isRevertEv e = false := by
    intro e he
    cases e <;> simp [isKernEv, isRevertEv] at he ⊢
  have hkun : ∀ e, isKernEv e = true → isUnpinEv e = false := by
    intro e he
    cases e <;> simp [isKernEv, isUnpinEv] at he ⊢
  have hrrev := fun (k : Kernel) (t m c : Nat) => hr k t m c isRevertEv hprev
  have hdrev := fun (k : Kernel) (b m c : Nat) => hd k b m c isRevertEv hprev'
  have hrun := fun (k : Kernel) (t m c : Nat) => hr k t m c isUnpinEv hpun
  have hdun := fun (k : Kernel) (b m c : Nat) => hd k b m c isUnpinEv hpun'
  have hb1rev := fun (k : Kernel) (la n a : Nat) => hb' k la n a isRevertEv hkrev
  have hb2rev := fun (k : Kernel) (la n a : Nat) => hb k la n a isRevertEv hkrev
  have hb1un := fun (k : Kernel) (la n a : Nat) => hb' k la n a isUnpinEv hkun
  have hb2un := fun (k : Kernel) (la n a : Nat) => hb k la n a isUnpinEv hkun
  rcases env with ⟨a1, a2, po, bo, ro, c0⟩
  cases a1 <;> cases a2 <;> cases po <;>
    simp [runTB, runSB, pubEvents, List.countP_append, List.countP_cons,
      isRevertEv, isUnpinEv, hrrev, hdrev, hrun, hdun,
      hb1rev, hb2rev, hb1un, hb2un]

/-- A duration-bounded real loop started at or beyond the target performs no
iteration. -/
theorem realLoop_exit (k : Kernel) (target : Nat) (st : LoopState)
    (h : ¬ st.elapsed < target) : realLoop k target st = st := by
  rw [realLoop]
  simp [h]

/-- A duration-bounded dummy loop started at or beyond its pass bound performs no
iteration. -/
theorem dummyLoop_exit (k : Kernel) (bound : Nat) (st : LoopState)
    (h : ¬ st.passes < bound) : dummyLoop k bound st = st := by
  rw [dummyLoop]
  simp [h]

/-- C8 (amended): for every completed run, in both modes, every publication write
happens inside the publication critical section, in source order: adjusted_ticks,
elapsed_ticks, elapsed_dummy_ticks, warning, bytes_per_pass, then
`completed = true`, and finally passes — so `completed` is written before the
last result field (`passes`) rather than as the final act — and no result-field
write occurs anywhere else in the run. -/
theorem c8_publication_write_order (g : Globals) (s spub : SharedState) (env : Env)
    (h2 : env.acquire2 = true) :
    (∃ pre, (runTB g s spub env).2 = pre ++ pubEvents ∧ pre.countP isWriteEv = 0) ∧
    (∃ pre, (runSB g s spub env).2 = pre ++ pubEvents ∧ pre.countP isWriteEv = 0) := by
  have hw : ∀ e, isKernTag false e = true ∨ isStartEv e = true ∨ isStopEv e = true →
      isWriteEv e = false := by
    intro e he
    exact (measure_event_classes e (by tauto)).2.2.2
  have hw' : ∀ e, isKernTag true e = true ∨ isStartEv e = true ∨ isStopEv e = true →
      isWriteEv e = false := by
    intro e he
    exact (measure_event_classes e (by tauto)).2.2.2
  have hrw : ∀ (k : Kernel) (t m c : Nat),
      (realLoop k t ⟨0, 0, m, c, []⟩).trace.countP isWriteEv = 0 := by
    intro k t m c
    exact countP_zero_of_all _ _ (realLoop_trace_all _ _ _ _ (by simp) hw)
  have hdw : ∀ (k : Kernel) (b m c : Nat),
      (dummyLoop k b ⟨0, 0, m, c, []⟩).trace.countP isWriteEv = 0 := by
    intro k b m c
    exact countP_zero_of_all _ _ (dummyLoop_trace_all _ _ _ _ (by simp) hw')
  have hkw : ∀ e, isKernEv e = true → isWriteEv e = false := by
    intro e he
    cases e <;> simp [isKernEv, isWriteEv] at he ⊢
  have hbw : ∀ (db : Bool) (k : Kernel) (la n a : Nat),
      ((runBatch k db la n a).2.2).countP isWriteEv = 0 := by
    intro db k la n a
    refine countP_zero_of_all _ _ ?_
    intro e he
    have hm := runBatch_trace_mem k db la n a e he
    refine hkw e ?_
    cases e <;> simp [isKernTag, isKernEv] at hm ⊢
  constructor
  · simp only [runTB, h2, if_true]
    refine ⟨_, rfl, ?_⟩
    by_cases ha1 : env.acquire1 = true <;> by_cases hpo : env.pin_ok = true <;>
      simp [ha1, hpo, List.countP_append, List.countP_cons, isWriteEv, hrw, hdw]
  · simp only [runSB, h2, if_true]
    refine ⟨_, rfl, ?_⟩
    by_cases ha1 : env.acquire1 = true <;> by_cases hpo : env.pin_ok = true <;>
      simp [ha1, hpo, List.countP_append, List.countP_cons, isWriteEv, hbw]

/-- C10: in both modes, if the publication-time lock acquisition fails, no
WorkerResult field is written — the shared state is left exactly as it was, so
the completed flag (false for an in-flight run) remains false and the controller
can never observe a partially published result. -/
theorem c10_publication_all_or_nothing (g : Globals) (s spub : SharedState) (env : Env)
    (h2 : env.acquire2 = false) :
    ((runTB g s spub env).1 = spub ∧ ((runTB g s spub env).2).countP isWriteEv = 0) ∧
    ((runSB g s spub env).1 = spub ∧ ((runSB g s spub env).2).countP isWriteEv = 0) := by
  have hw : ∀ e, isKernTag false e = true ∨ isStartEv e = true ∨ isStopEv e = true →
      isWriteEv e = false := by
    intro e he
    exact (measure_event_classes e (by tauto)).2.2.2
  have hw' : ∀ e, isKernTag true e = true ∨ isStartEv e = true ∨ isStopEv e = true →
      isWriteEv e = false := by
    intro e he
    exact (measure_event_classes e (by tauto)).2.2.2
  have hrw : ∀ (k : Kernel) (t m c : Nat),
      (realLoop k t ⟨0, 0, m, c, []⟩).trace.countP isWriteEv = 0 := by
    intro k t m c
    exact countP_zero_of_all _ _ (realLoop_trace_all _ _ _ _ (by simp) hw)
  have hdw : ∀ (k : Kernel) (b m c : Nat),
      (dummyLoop k b ⟨0, 0, m, c, []⟩).trace.countP isWriteEv = 0 := by
    intro k b m c
    exact countP_zero_of_all _ _ (dummyLoop_trace_all _ _ _ _ (by simp) hw')
  have hkw : ∀ e, isKernEv e = true → isWriteEv e = false := by
    intro e he
    cases e <;> simp [isKernEv, isWriteEv] at he ⊢
  have hbw : ∀ (db : Bool) (k : Kernel) (la n a : Nat),
      ((runBatch k db la n a).2.2).countP isWriteEv = 0 := by
    intro db k la n a
    refine countP_zero_of_all _ _ ?_
    intro e he
    have hm := runBatch_trace_mem k db la n a e he
    refine hkw e ?_
    cases e <;> simp [isKernTag, isKernEv] at hm ⊢
  constructor
  · constructor
    · simp [runTB, h2]
    · simp only [runTB, h2]
      by_cases ha1 : env.acquire1 = true <;> by_cases hpo : env.pin_ok = true <;>
        simp [ha1, hpo, List.countP_append, List.countP_cons, isWriteEv, hrw, hdw]
  · constructor
    · simp [runSB, h2]
    · simp only [runSB, h2]
      by_cases ha1 : env.acquire1 = true <;> by_cases hpo : env.pin_ok = true <;>
        simp [ha1, hpo, List.countP_append, List.countP_cons, isWriteEv, hbw]

/-- C6 (amended): mutating the shared configuration after a run's snapshot and
before publication never alters the run's behavior (trace) or its published
result in duration-bounded mode; in pass-count-bounded mode the same holds
provided the mutation preserves the shared memory base address `_mem_array`,
because the size-based dummy loop re-reads `_mem_array` from shared state after
the snapshot (line 169). -/
theorem c6_config_isolation (g : Globals) (s spub spub' : SharedState) (env : Env)
    (hres : spub.result = spub'.result) :
    ((runTB g s spub env).1.result = (runTB g s spub' env).1.result ∧
      (runTB g s spub env).2 = (runTB g s spub' env).2) ∧
    (spub.mem_array = spub'.mem_array →
      ((runSB g s spub env).1.result = (runSB g s spub' env).1.result ∧
        (runSB g s spub env).2 = (runSB g s spub' env).2)) := by
  have hc : spub.adjusted_ticks = spub'.adjusted_ticks ∧
      spub.elapsed_ticks = spub'.elapsed_ticks ∧
      spub.elapsed_dummy_ticks = spub'.elapsed_dummy_ticks ∧
      spub.warning = spub'.warning ∧
      spub.bytes_per_pass = spub'.bytes_per_pass ∧
      spub.completed = spub'.completed ∧ spub.passes = spub'.passes := by
    simpa [SharedState.result, WorkerResult.mk.injEq] using hres
  obtain ⟨hc1, hc2, hc3, hc4, hc5, hc6, hc7⟩ := hc
  constructor
  · by_cases ha2 : env.acquire2 = true <;>
      simp [runTB, ha2, SharedState.result, hc1, hc2, hc3, hc4, hc5, hc6, hc7]
  · intro hmem
    by_cases ha2 : env.acquire2 = true <;>
      simp [runSB, ha2, SharedState.result, hmem, hc1, hc2, hc3, hc4, hc5, hc6, hc7]

/-- In a trace that splits as `a ++ b` where the suffix `b` carries no p-events
and the prefix `a` carries no q-events, every p-event precedes every q-event. -/
theorem append_sep_lt (p q : Event → Bool) (tr a b : List Event) (htr : tr = a ++ b)
    (hb : ∀ e ∈ b, p e = false) (ha : ∀ e ∈ a, q e = false) :
    ∀ (i j : Fin tr.length), p (tr.get i) = true → q (tr.get j) = true →
      (i : Nat) < (j : Nat) := by
  subst htr
  intro i j hp hq
  have hia : (i : Nat) < a.length := by
    by_contra hcon
    push_neg at hcon
    have hib : (i : Nat) - a.length < b.length := by
      have hi := i.isLt
      simp only [List.length_append] at hi
      omega
    have hget : (a ++ b).get i = b.get ⟨(i : Nat) - a.length, hib⟩ := by
      rw [List.get_eq_getElem, List.get_eq_getElem]
      exact List.getElem_append_right hcon
    rw [hget] at hp
    rw [hb _ (List.get_mem b _ hib)] at hp
    exact Bool.false_ne_true hp
  have hja : a.length ≤ (j : Nat) := by
    by_contra hcon
    push_neg at hcon
    have hget : (a ++ b).get j = a.get ⟨(j : Nat), hcon⟩ := by
      rw [List.get_eq_getElem, List.get_eq_getElem]
      exact List.getElem_append_left hcon
    rw [hget] at hq
    rw [ha _ (List.get_mem a _ hcon)] at hq
    exact Bool.false_ne_true hq
  omega

/-- Variant of `append_sep_lt` taking count-zero facts for the two parts. -/
theorem append_sep_lt_count (p q : Event → Bool) (tr a b : List Event)
    (htr : tr = a ++ b) (hb : b.countP p = 0) (ha : a.countP q = 0) :
    ∀ (i j : Fin tr.length), p (tr.get i) = true → q (tr.get j) = true →
      (i : Nat) < (j : Nat) := by
  refine append_sep_lt p q tr a b htr ?_ ?_
  · intro e he
    simpa using List.countP_eq_zero.mp hb e he
  · intro e he
    simpa using List.countP_eq_zero.mp ha e he

/-- A batch trace contains no priming read. -/
theorem runBatch_countP_prime (k : Kernel) (db : Bool) (lenArg n addr : Nat) :
    ((runBatch k db lenArg n addr).2.2).countP isPrimeEv = 0 := by
  refine countP_zero_of_all _ _ ?_
  intro e he
  have hm := runBatch_trace_mem k db lenArg n addr e he
  cases e <;> simp [isKernTag, isPrimeEv] at hm ⊢

/-- C9: in both build modes, for every run that snapshotted its configuration,
exactly four full-region priming reads over `[mem_array, mem_array + len)`
appear in the trace, and every priming read precedes every timer start, so no
priming read falls inside a measured interval. -/
theorem c9_priming_before_timing (g : Globals) (s spub : SharedState) (env : Env)
    (h1 : env.acquire1 = true) :
    (((runTB g s spub env).2).filter isPrimeEv =
      [Event.primeRead s.mem_array s.len, Event.primeRead s.mem_array s.len,
        Event.primeRead s.mem_array s.len, Event.primeRead s.mem_array s.len] ∧
    ∀ (i j : Fin ((runTB g s spub env).2).length),
      isPrimeEv (((runTB g s spub env).2).get i) = true →
      isStartEv (((runTB g s spub env).2).get j) = true →
      (i : Nat) < (j : Nat)) ∧
    (((runSB g s spub env).2).filter isPrimeEv =
      [Event.primeRead s.mem_array s.len, Event.primeRead s.mem_array s.len,
        Event.primeRead s.mem_array s.len, Event.primeRead s.mem_array s.len] ∧
    ∀ (i j : Fin ((runSB g s spub env).2).length),
      isPrimeEv (((runSB g s spub env).2).get i) = true →
      isStartEv (((runSB g s spub env).2).get j) = true →
      (i : Nat) < (j : Nat)) := by
  have hprime : ∀ e, isKernTag false e = true ∨ isStartEv e = true ∨ isStopEv e = true →
      isPrimeEv e = false := by
    intro e he
    exact (measure_event_classes e (by tauto)).1
  have hprime' : ∀ e, isKernTag true e = true ∨ isStartEv e = true ∨ isStopEv e = true →
      isPrimeEv e = false := by
    intro e he
    exact (measure_event_classes e (by tauto)).1
  have hrpf : ∀ (k : Kernel) (t m c : Nat),
      ((realLoop k t ⟨0, 0, m, c, []⟩).trace).filter isPrimeEv = [] := by
    intro k t m c
    rw [List.filter_eq_nil_iff]
    intro e he
    simp [realLoop_trace_all k t ⟨0, 0, m, c, []⟩ isPrimeEv (by simp) hprime e he]
  have hdpf : ∀ (k : Kernel) (b m c : Nat),
      ((dummyLoop k b ⟨0, 0, m, c, []⟩).trace).filter isPrimeEv = [] := by
    intro k b m c
    rw [List.filter_eq_nil_iff]
    intro e he
    simp [dummyLoop_trace_all k b ⟨0, 0, m, c, []⟩ isPrimeEv (by simp) hprime' e he]
  have hbf : ∀ (db : Bool) (k : Kernel) (la n a : Nat),
      ((runBatch k db la n a).2.2).filter isPrimeEv = [] := by
    intro db k la n a
    rw [List.filter_eq_nil_iff]
    exact List.countP_eq_zero.mp (runBatch_countP_prime k db la n a)
  refine ⟨⟨?_, ?_⟩, ⟨?_, ?_⟩⟩
  · simp only [runTB, h1, if_true]
    by_cases ha2 : env.acquire2 = true <;> by_cases hpo : env.pin_ok = true <;>
      simp [ha2, hpo, pubEvents, List.filter_append, hrpf, hdpf, isPrimeEv]
  · refine append_sep_lt isPrimeEv isStartEv _
      [Event.lockAcquire true, Event.lockRelease,
        Event.pin s.cpu_affinity env.pin_ok, Event.boost env.boost_ok,
        Event.primeRead s.mem_array s.len, Event.primeRead s.mem_array s.len,
        Event.primeRead s.mem_array s.len, Event.primeRead s.mem_array s.len]
      ((realLoop s.kernel_fptr (g.ticks_per_sec * g.duration_sec)
          ⟨0, 0, s.mem_array, env.clock0, []⟩).trace ++
        ((dummyLoop s.kernel_dummy_fptr
            (realLoop s.kernel_fptr (g.ticks_per_sec * g.duration_sec)
              ⟨0, 0, s.mem_array, env.clock0, []⟩).passes
            ⟨0, 0, s.mem_array,
              (realLoop s.kernel_fptr (g.ticks_per_sec * g.duration_sec)
                ⟨0, 0, s.mem_array, env.clock0, []⟩).clock, []⟩).trace ++
          ((if env.pin_ok then [Event.unpin] else []) ++
            ([Event.revertPrio env.revert_ok] ++
              (if env.acquire2 then pubEvents else [Event.lockAcquire false])))))
      ?_ ?_ ?_
    · simp only [runTB, h1, if_true]
      by_cases ha2 : env.acquire2 = true <;> by_cases hpo : env.pin_ok = true <;>
        simp [ha2, hpo, List.append_assoc]
    · intro e he
      simp only [List.mem_append] at he
      rcases he with he | he | he
      · exact realLoop_trace_all _ _ _ isPrimeEv (by simp) hprime e he
      · exact dummyLoop_trace_all _ _ _ isPrimeEv (by simp) hprime' e he
      · rcases he with he | he | he
        · by_cases hpo : env.pin_ok = true <;> simp [hpo] at he
          subst he
          rfl
        · simp only [List.mem_singleton] at he
          subst he
          rfl
        · by_cases ha2 : env.acquire2 = true <;> simp [ha2, pubEvents] at he <;>
            rcases he with rfl | rfl | rfl | rfl | rfl | rfl | rfl | rfl | rfl <;> rfl
    · intro e he
      simp only [List.mem_cons, List.not_mem_nil, or_false] at he
      rcases he with rfl | rfl | rfl | rfl | rfl | rfl | rfl | rfl <;> rfl
  · simp only [runSB, h1, if_true]
    by_cases ha2 : env.acquire2 = true <;> by_cases hpo : env.pin_ok = true <;>
      simp [ha2, hpo, pubEvents, List.filter_append, hbf, isPrimeEv]
  · refine append_sep_lt_count isPrimeEv isStartEv _
      [Event.lockAcquire true, Event.lockRelease,
        Event.pin s.cpu_affinity env.pin_ok, Event.boost env.boost_ok,
        Event.primeRead s.mem_array s.len, Event.primeRead s.mem_array s.len,
        Event.primeRead s.mem_array s.len, Event.primeRead s.mem_array s.len]
      ((Event.timerStart env.clock0 ::
          ((runBatch s.kernel_fptr false s.len s.passes_per_iteration s.mem_array).2.2 ++
            [Event.timerStop (env.clock0 +
              (runBatch s.kernel_fptr false s.len s.passes_per_iteration s.mem_array).2.1)]) ++
        Event.timerStart (env.clock0 +
            (runBatch s.kernel_fptr false s.len s.passes_per_iteration s.mem_array).2.1) ::
          ((runBatch s.kernel_dummy_fptr true s.len s.passes_per_iteration spub.mem_array).2.2 ++
            [Event.timerStop (env.clock0 +
              (runBatch s.kernel_fptr false s.len s.passes_per_iteration s.mem_array).2.1 +
              (runBatch s.kernel_dummy_fptr true s.len s.passes_per_iteration
                spub.mem_array).2.1)])) ++
        ((if env.pin_ok then [Event.unpin] else []) ++
          ([Event.revertPrio env.revert_ok] ++
            (if env.acquire2 then pubEvents else [Event.lockAcquire false]))))
      ?_ ?_ ?_
    · simp only [runSB, h1, if_true]
      by_cases ha2 : env.acquire2 = true <;> by_cases hpo : env.pin_ok = true <;>
        simp [ha2, hpo, List.append_assoc]
    · by_cases ha2 : env.acquire2 = true <;> by_cases hpo : env.pin_ok = true <;>
        simp [ha2, hpo, pubEvents, List.countP_append, List.countP_cons, isPrimeEv,
          runBatch_countP_prime]
    · simp [List.countP_cons, isStartEv]

/-! ## Concrete runs -/

/-- A test kernel with constant per-invocation cost `c + 1` ticks that leaves the
chain pointer in place. -/
def constKernel (c : Nat) : Kernel :=
  ⟨fun a _ => a, fun _ _ => c + 1, fun _ _ => Nat.succ_pos c⟩

/-- A test kernel whose per-invocation cost is the current address plus one. -/
def addrKernel : Kernel :=
  ⟨fun a _ => a, fun a _ => a + 1, fun a _ => Nat.succ_pos a⟩

/-- Globals with a one-tick target duration and `MIN_ELAPSED_TICKS = 0`. -/
def gOne : Globals := ⟨1, 1, 0, 512⟩

/-- Globals with a zero-tick target duration: the duration-bounded loops exit
immediately. -/
def gZero : Globals := ⟨0, 1, 0, 512⟩

/-- Shared state whose real kernel costs 10 ticks per pass and whose dummy
kernel costs 1, with 10 configured passes. -/
def sReal10 : SharedState :=
  ⟨1000, 64, 10, 3, constKernel 9, constKernel 0, 0, 0, 0, false, 0, false, 0⟩

/-- Shared state whose real kernel costs 1 tick per pass and whose dummy kernel
costs 100, with 10 configured passes. -/
def sDummy100 : SharedState :=
  ⟨1000, 64, 10, 3, constKernel 0, constKernel 99, 0, 0, 0, false, 0, false, 0⟩

/-- Shared state for the config-isolation counterexample: one configured pass,
address-dependent kernel costs, base address 5. -/
def sAddr : SharedState :=
  ⟨5, 64, 1, 3, addrKernel, addrKernel, 0, 0, 0, false, 0, false, 0⟩

/-- The environment of a fully successful run, counter starting at 0. -/
def envOK : Env := ⟨true, true, true, true, true, 0⟩

/-- A run environment in which CPU pinning fails. -/
def envNoPin : Env := ⟨true, true, false, true, true, 0⟩

/-- A run environment in which the publication lock acquisition fails. -/
def envNoPub : Env := ⟨true, false, true, true, true, 0⟩

/-- Closed form of a batch of a constant-cost, pointer-preserving kernel. -/
theorem runBatch_const (c : Nat) (db : Bool) (lenArg : Nat) : ∀ n a,
    runBatch (constKernel c) db lenArg n a =
      (a, n * (c + 1), List.replicate n (Event.kern db a (c + 1))) := by
  intro n
  induction n with
  | zero => intro a; simp [runBatch]
  | succ m ih =>
      intro a
      simp only [runBatch, ih]
      simp only [constKernel, List.replicate_succ, Prod.mk.injEq]
      exact ⟨trivial, by ring, trivial⟩

/-- C4: pass-count-bounded mode computes each elapsed total as
`start_tick - stop_tick` on `uint64_t` (lines 166 and 174 of the source), not as
`stop_tick - start_tick`.  At a run of 10 passes with the counter starting at 0,
the real kernel costing 10 ticks per pass and the dummy kernel 1 tick, the code
publishes `2 ^ 64 - 100` instead of the true real duration 100, and
`2 ^ 64 - 10` instead of the true dummy duration 10. -/
theorem c4_size_mode_start_minus_stop :
    (runSB gOne sReal10 sReal10 envOK).1.elapsed_ticks = U64 - 100 ∧
    (runSB gOne sReal10 sReal10 envOK).1.elapsed_dummy_ticks = U64 - 10 ∧
    U64 - 100 ≠ 100 ∧ U64 - 10 ≠ 10 := by decide

/-- C6 counterexample: in pass-count-bounded mode, mutating the shared
`_mem_array` (from 5 to 7) after the snapshot and before publication — a
mutation that touches no result field — changes the published result, because
the size-based dummy loop re-reads `_mem_array` from shared state (line 169). -/
theorem c6_counterexample :
    sAddr.result = ({ sAddr with mem_array := 7 }).result ∧
    (runSB gOne sAddr sAddr envOK).1.result ≠
      (runSB gOne sAddr { sAddr with mem_array := 7 } envOK).1.result := by
  constructor
  · rfl
  · decide

/-- C7 counterexample: in a completed run in which CPU pinning failed, the trace
contains no pin-release event at all — the source calls
`unlock_thread_to_numa_node` only when `lock_thread_to_cpu` succeeded — refuting
the claim that the pin release is performed even when the pin step failed. -/
theorem c7_counterexample :
    envNoPin.pin_ok = false ∧
    ((runTB gZero sReal10 sReal10 envNoPin).2).countP isUnpinEv = 0 := by
  constructor
  · rfl
  · simp [runTB, envNoPin, gZero, sReal10, realLoop_exit, dummyLoop_exit,
      pubEvents, isUnpinEv, List.countP_append, List.countP_cons]

/-- C8 counterexample: at a concrete completed run the publication writes occur
in the order adjusted, elapsed, dummy, warning, bytes-per-pass, completed,
passes: the result field `passes` is written after the completed flag, so
setting `completed = true` is not the final act before the lock release. -/
theorem c8_counterexample :
    ((runTB gZero sReal10 sReal10 envOK).2).filter isWriteEv =
      [Event.write RecField.adjustedTicks, Event.write RecField.elapsedTicks,
        Event.write RecField.elapsedDummyTicks, Event.write RecField.warningFlag,
        Event.write RecField.bytesPerPass, Event.write RecField.completedFlag,
        Event.write RecField.passesCount] ∧
    RecField.passesCount ≠ RecField.completedFlag := by
  constructor
  · simp [runTB, envOK, gZero, sReal10, realLoop_exit, dummyLoop_exit,
      pubEvents, isWriteEv, List.filter_append]
  · decide

/-! ## Witnesses -/

/-- Witness for C1 at concrete runs: a duration-bounded run (real cost 10,
dummy cost 1, one-tick target) and a size-based run (real cost 1, dummy cost
100, 10 passes). -/
theorem c1_witness :
    envOK.acquire1 = true ∧ envOK.acquire2 = true ∧
    (runTB gOne sReal10 sReal10 envOK).1.elapsed_dummy_ticks <
      (runTB gOne sReal10 sReal10 envOK).1.elapsed_ticks ∧
    (runTB gOne sReal10 sReal10 envOK).1.elapsed_ticks < U64 ∧
    (runTB gOne sReal10 sReal10 envOK).1.adjusted_ticks =
      (runTB gOne sReal10 sReal10 envOK).1.elapsed_ticks -
        (runTB gOne sReal10 sReal10 envOK).1.elapsed_dummy_ticks ∧
    (runSB gOne sDummy100 sDummy100 envOK).1.elapsed_dummy_ticks <
      (runSB gOne sDummy100 sDummy100 envOK).1.elapsed_ticks ∧
    (runSB gOne sDummy100 sDummy100 envOK).1.elapsed_ticks < U64 ∧
    (runSB gOne sDummy100 sDummy100 envOK).1.adjusted_ticks =
      (runSB gOne sDummy100 sDummy100 envOK).1.elapsed_ticks -
        (runSB gOne sDummy100 sDummy100 envOK).1.elapsed_dummy_ticks := by
  have hev : (runTB gOne sReal10 sReal10 envOK).1.elapsed_ticks = 2560 ∧
      (runTB gOne sReal10 sReal10 envOK).1.elapsed_dummy_ticks = 256 := by
    set_option maxRecDepth 8000 in
    constructor <;>
      simp [runTB, gOne, sReal10, envOK, realLoop, dummyLoop, runBatch_const,
        sub64, U64, warningOf]
  have hTBlt : (runTB gOne sReal10 sReal10 envOK).1.elapsed_dummy_ticks <
      (runTB gOne sReal10 sReal10 envOK).1.elapsed_ticks := by
    rw [hev.1, hev.2]
    norm_num
  have hTB64 : (runTB gOne sReal10 sReal10 envOK).1.elapsed_ticks < U64 := by
    rw [hev.1]
    decide
  have hSBlt : (runSB gOne sDummy100 sDummy100 envOK).1.elapsed_dummy_ticks <
      (runSB gOne sDummy100 sDummy100 envOK).1.elapsed_ticks := by decide
  have hSB64 : (runSB gOne sDummy100 sDummy100 envOK).1.elapsed_ticks < U64 := by decide
  exact ⟨rfl, rfl, hTBlt, hTB64,
    (c1_adjusted_ticks_exact gOne sReal10 sReal10 envOK rfl rfl).1 hTBlt hTB64,
    hSBlt, hSB64,
    (c1_adjusted_ticks_exact gOne sDummy100 sDummy100 envOK rfl rfl).2 hSBlt hSB64⟩

/-- Witness for C2 at a concrete completed run in each mode. -/
theorem c2_witness :
    envOK.acquire1 = true ∧ envOK.acquire2 = true ∧
    ((((runTB gOne sReal10 sReal10 envOK).1.warning = true ↔
      ((runTB gOne sReal10 sReal10 envOK).1.elapsed_ticks ≤
          (runTB gOne sReal10 sReal10 envOK).1.elapsed_dummy_ticks ∨
        (runTB gOne sReal10 sReal10 envOK).1.elapsed_ticks < gOne.min_elapsed_ticks ∨
        2 * (runTB gOne sReal10 sReal10 envOK).1.adjusted_ticks <
          (runTB gOne sReal10 sReal10 envOK).1.elapsed_ticks)) ∧
      (runTB gOne sReal10 sReal10 envOK).1.completed = true) ∧
    (((runSB gOne sReal10 sReal10 envOK).1.warning = true ↔
      ((runSB gOne sReal10 sReal10 envOK).1.elapsed_ticks ≤
          (runSB gOne sReal10 sReal10 envOK).1.elapsed_dummy_ticks ∨
        (runSB gOne sReal10 sReal10 envOK).1.elapsed_ticks < gOne.min_elapsed_ticks ∨
        2 * (runSB gOne sReal10 sReal10 envOK).1.adjusted_ticks <
          (runSB gOne sReal10 sReal10 envOK).1.elapsed_ticks)) ∧
      (runSB gOne sReal10 sReal10 envOK).1.completed = true)) :=
  ⟨rfl, rfl, c2_warning_iff gOne sReal10 sReal10 envOK rfl rfl⟩

/-- Witness for C3 at a concrete duration-bounded run. -/
theorem c3_witness :
    envOK.acquire1 = true ∧ envOK.acquire2 = true ∧
    (256 ∣ (runTB gOne sReal10 sReal10 envOK).1.passes ∧
      gOne.ticks_per_sec * gOne.duration_sec ≤
        (runTB gOne sReal10 sReal10 envOK).1.elapsed_ticks) :=
  ⟨rfl, rfl, c3_time_mode_loop_exit gOne sReal10 sReal10 envOK rfl rfl⟩

/-- Witness for C5 at a concrete duration-bounded run. -/
theorem c5_witness :
    envOK.acquire1 = true ∧ envOK.acquire2 = true ∧
    (((runTB gOne sReal10 sReal10 envOK).2).countP (isKernTag true) =
        ((runTB gOne sReal10 sReal10 envOK).2).countP (isKernTag false) ∧
      ((runTB gOne sReal10 sReal10 envOK).2).countP (isKernTag false) =
        (runTB gOne sReal10 sReal10 envOK).1.passes) :=
  ⟨rfl, rfl, c5_dummy_invocations_match gOne sReal10 sReal10 envOK rfl rfl⟩

/-- Witness for the amended C6 at a concrete post-snapshot mutation of the
shared `len` field (a result-preserving, address-preserving config mutation). -/
theorem c6_witness :
    sReal10.result = ({ sReal10 with len := 999 }).result ∧
    (((runTB gOne sReal10 sReal10 envOK).1.result =
        (runTB gOne sReal10 { sReal10 with len := 999 } envOK).1.result ∧
      (runTB gOne sReal10 sReal10 envOK).2 =
        (runTB gOne sReal10 { sReal10 with len := 999 } envOK).2) ∧
    (sReal10.mem_array = ({ sReal10 with len := 999 }).mem_array →
      ((runSB gOne sReal10 sReal10 envOK).1.result =
          (runSB gOne sReal10 { sReal10 with len := 999 } envOK).1.result ∧
        (runSB gOne sReal10 sReal10 envOK).2 =
          (runSB gOne sReal10 { sReal10 with len := 999 } envOK).2))) :=
  ⟨rfl, c6_config_isolation gOne sReal10 sReal10 { sReal10 with len := 999 } envOK rfl⟩

/-- Witness for the amended C8 at a concrete completed run in each mode. -/
theorem c8_witness :
    envOK.acquire2 = true ∧
    ((∃ pre, (runTB gOne sReal10 sReal10 envOK).2 = pre ++ pubEvents ∧
        pre.countP isWriteEv = 0) ∧
      (∃ pre, (runSB gOne sReal10 sReal10 envOK).2 = pre ++ pubEvents ∧
        pre.countP isWriteEv = 0)) :=
  ⟨rfl, c8_publication_write_order gOne sReal10 sReal10 envOK rfl⟩

/-- Witness for C9 at a concrete run in each mode. -/
theorem c9_witness :
    envOK.acquire1 = true ∧
    ((((runTB gOne sReal10 sReal10 envOK).2).filter isPrimeEv =
      [Event.primeRead sReal10.mem_array sReal10.len,
        Event.primeRead sReal10.mem_array sReal10.len,
        Event.primeRead sReal10.mem_array sReal10.len,
        Event.primeRead sReal10.mem_array sReal10.len] ∧
    ∀ (i j : Fin ((runTB gOne sReal10 sReal10 envOK).2).length),
      isPrimeEv (((runTB gOne sReal10 sReal10 envOK).2).get i) = true →
      isStartEv (((runTB gOne sReal10 sReal10 envOK).2).get j) = true →
      (i : Nat) < (j : Nat)) ∧
    (((runSB gOne sReal10 sReal10 envOK).2).filter isPrimeEv =
      [Event.primeRead sReal10.mem_array sReal10.len,
        Event.primeRead sReal10.mem_array sReal10.len,
        Event.primeRead sReal10.mem_array sReal10.len,
        Event.primeRead sReal10.mem_array sReal10.len] ∧
    ∀ (i j : Fin ((runSB gOne sReal10 sReal10 envOK).2).length),
      isPrimeEv (((runSB gOne sReal10 sReal10 envOK).2).get i) = true →
      isStartEv (((runSB gOne sReal10 sReal10 envOK).2).get j) = true →
      (i : Nat) < (j : Nat))) :=
  ⟨rfl, c9_priming_before_timing gOne sReal10 sReal10 envOK rfl⟩

/-- Witness for C10 at a concrete run whose publication lock acquisition
fails. -/
theorem c10_witness :
    envNoPub.acquire2 = false ∧
    (((runTB gOne sReal10 sReal10 envNoPub).1 = sReal10 ∧
        ((runTB gOne sReal10 sReal10 envNoPub).2).countP isWriteEv = 0) ∧
      ((runSB gOne sReal10 sReal10 envNoPub).1 = sReal10 ∧
        ((runSB gOne sReal10 sReal10 envNoPub).2).countP isWriteEv = 0)) :=
  ⟨rfl, c10_publication_all_or_nothing gOne sReal10 sReal10 envNoPub rfl⟩

end XMem
